import Mathlib

/-!
Verification development for the portfolio contact-form backend
(`src/server.js` plus its logger and the documented database schema).

The JavaScript request handlers are shallowly embedded as pure Lean
functions.  JSON payload fields are `Option String` (`none` models an
absent / `undefined` field); JavaScript truthiness on such a field is
`truthy`.  The outbound Resend call is a parameter of the handler
(`SendOutcome`), email-syntax validation (`validator.isEmail`) is an
opaque-to-the-handler boolean parameter, and `validator.escape` is
embedded concretely as `escapeHtml`.
-/

set_option maxRecDepth 10000

namespace PortfolioBackend

/-- A JSON contact payload as destructured on line 55 of `src/server.js`:
fields may be absent (`none`) or carry a string. -/
structure Payload where
  firstName : Option String
  lastName : Option String
  email : Option String
  subject : Option String
  message : Option String
  company : Option String
deriving Repr, DecidableEq

/-- The environment variables the contact and admin handlers read. -/
structure Env where
  EMAIL_USER : String
  ADMIN_API_KEY : String
deriving Repr, DecidableEq

/-- JavaScript truthiness of an optional string field: `undefined` and
the empty string are falsy, every other string is truthy. -/
def truthy : Option String → Bool
  | none => false
  | some s => s != ""

/-- One replacement step of `validator.escape` (validator.js): the eight
characters it rewrites to HTML entities; every other character is kept.
The chained `String.prototype.replace` calls of validator.js are
equivalent to this single character map because `&` is replaced first
and no replacement string contains a later-replaced character. -/
def escapeChar (c : Char) : String :=
  if c = '&' then "&amp;"
  else if c = Char.ofNat 34 then "&quot;"
  else if c = Char.ofNat 39 then "&#x27;"
  else if c = '<' then "&lt;"
  else if c = '>' then "&gt;"
  else if c = '/' then "&#x2F;"
  else if c = Char.ofNat 92 then "&#x5C;"
  else if c = Char.ofNat 96 then "&#96;"
  else String.singleton c

/-- `validator.escape` on a string argument. -/
def escapeHtml (s : String) : String :=
  String.join (s.data.map escapeChar)

/-- The structured log events `logEvent` is called with in
`src/server.js` (the logger itself just serialises them). -/
inductive LogEvent where
  | spamBlocked (ip : String)
  | rateLimited (ip : String)
  | resendError (ip email err : String)
  | success (ip email subject : String)
  | error (ip err : String)
deriving Repr, DecidableEq

/-- A JSON response body: `{success: true}` or `{error: msg}`. -/
inductive Resp where
  | success
  | error (msg : String)
deriving Repr, DecidableEq

/-- How a handler run ends: an HTTP response, or an exception thrown
outside every `try`/`catch` (no response is produced by the handler). -/
inductive ContactResult where
  | res (status : Nat) (body : Resp)
  | crash (msg : String)
deriving Repr, DecidableEq

/-- The email message assembled for `resend.emails.send`
(lines 97–111 of `src/server.js`). -/
structure EmailMsg where
  fromAddr : String
  toAddr : String
  replyTo : String
  subject : String
  text : String
  html : String
deriving Repr, DecidableEq

/-- A row of the `messages` table as inserted on lines 123–137 of
`src/server.js` (id and created_at are store-assigned). -/
structure Row where
  first_name : String
  last_name : String
  email : String
  subject : Option String
  message : String
  ip_address : String
deriving Repr, DecidableEq

/-- Outcome of the `resend.emails.send` call: resolves cleanly, resolves
with a structured `error` payload, or rejects (transport exception). -/
inductive SendOutcome where
  | ok
  | errPayload (msg : String)
  | exn (msg : String)
deriving Repr, DecidableEq

/-- Everything observable about one run of the contact handler. -/
structure ContactOutcome where
  result : ContactResult
  logs : List LogEvent
  emailSent : Option EmailMsg
  inserted : Option Row
deriving Repr, DecidableEq

/-- The plain-text email body of line 102 of `src/server.js`. -/
def emailText (sfn sln email ssub smsg : String) : String :=
  "Name: " ++ sfn ++ " " ++ sln ++ "\nEmail: " ++ email ++
    "\nSubject: " ++ ssub ++ "\nMessage: " ++ smsg

/-- The HTML email body of lines 103–110 of `src/server.js`. -/
def emailHtml (sfn sln email ssub smsg : String) : String :=
  "\n        <h3>New Contact Form Submission</h3>\n        <p><strong>Name:</strong> "
    ++ sfn ++ " " ++ sln ++ "</p>\n        <p><strong>Email:</strong> " ++ email
    ++ "</p>\n        <p><strong>Subject:</strong> "
    ++ (if ssub != "" then ssub else "None")
    ++ "</p>\n        <p><strong>Message:</strong></p>\n        <p>" ++ smsg
    ++ "</p>\n      "

/-- The `POST /api/contact` handler body (lines 54–156 of
`src/server.js`), after the rate limiter has let the request through.
`isEmail` stands for `validator.isEmail`; `send` is the outcome of the
`resend.emails.send` call.  `validator.escape(subject)` on line 94 runs
outside the `try` block, and validator.js's `assertString` throws a
`TypeError` on a non-string argument, so an absent `subject` crashes the
handler before any email or insert. -/
def contactHandler (isEmail : String → Bool) (env : Env) (ip : String)
    (p : Payload) (send : SendOutcome) : ContactOutcome :=
  if truthy p.company then
    { result := .res 200 .success, logs := [.spamBlocked ip],
      emailSent := none, inserted := none }
  else if !truthy p.firstName || !truthy p.lastName || !truthy p.email
      || !truthy p.message then
    { result := .res 400 (.error "Missing required fields."), logs := [],
      emailSent := none, inserted := none }
  else
    let email := p.email.getD ""
    let firstName := p.firstName.getD ""
    let lastName := p.lastName.getD ""
    let message := p.message.getD ""
    if !truthy p.email || !isEmail email then
      { result := .res 400 (.error "Please provide a valid email address"),
        logs := [], emailSent := none, inserted := none }
    else if email.length > 254 then
      { result := .res 400 (.error "Email address is too long"),
        logs := [], emailSent := none, inserted := none }
    else if !truthy p.message || message.length > 1000 then
      { result := .res 400 (.error "Message must be less than 1000 characters"),
        logs := [], emailSent := none, inserted := none }
    else
      match p.subject with
      | none =>
        { result := .crash "TypeError: Expected a string but received a undefined",
          logs := [], emailSent := none, inserted := none }
      | some subject =>
        let sanitizedMessage := escapeHtml message
        let sanitizedFirstName := escapeHtml firstName
        let sanitizedLastName := escapeHtml lastName
        let sanitizedSubject := escapeHtml subject
        match send with
        | .exn m =>
          { result := .res 500 (.error "Failed to send message. Please try again later."),
            logs := [.error ip m], emailSent := none, inserted := none }
        | .errPayload m =>
          { result := .res 500 (.error "Failed to send message. Please try again later."),
            logs := [.resendError ip email m, .error ip m],
            emailSent := none, inserted := none }
        | .ok =>
          { result := .res 200 .success,
            logs := [.success ip email subject],
            emailSent := some
              { fromAddr := "Portfolio Contact <onboarding@resend.dev>",
                toAddr := env.EMAIL_USER,
                replyTo := email,
                subject := if sanitizedSubject != "" then sanitizedSubject
                           else "New Portfolio Contact",
                text := emailText sanitizedFirstName sanitizedLastName email
                  sanitizedSubject sanitizedMessage,
                html := emailHtml sanitizedFirstName sanitizedLastName email
                  sanitizedSubject sanitizedMessage },
            inserted := some
              { first_name := sanitizedFirstName,
                last_name := sanitizedLastName,
                email := email,
                subject := if sanitizedSubject != "" then some sanitizedSubject
                           else none,
                message := sanitizedMessage,
                ip_address := ip } }

/-- JavaScript `parseInt(s, 10)`: skip leading whitespace, read an
optional sign and then leading decimal digits; `none` models `NaN`
(absent argument, or no digits found). -/
def jsParseInt : Option String → Option Int
  | none => none
  | some s =>
    let cs := s.data.dropWhile (fun c => c = ' ' || c = Char.ofNat 9
      || c = Char.ofNat 10 || c = Char.ofNat 13 || c = Char.ofNat 12
      || c = Char.ofNat 11)
    let signAndRest : Bool × List Char :=
      match cs with
      | '-' :: r => (true, r)
      | '+' :: r => (false, r)
      | r => (false, r)
    let ds := signAndRest.2.takeWhile Char.isDigit
    if ds.isEmpty then none
    else
      let n : Nat := ds.foldl (fun a c => a * 10 + (c.toNat - 48)) 0
      some (if signAndRest.1 then -(n : Int) else (n : Int))

/-- JavaScript `x || d` applied to the result of `parseInt`: `NaN`
(here `none`) and `0` are falsy and fall back to the default; every
other number, including negatives, is kept. -/
def orDefault (v : Option Int) (d : Int) : Int :=
  match v with
  | none => d
  | some n => if n = 0 then d else n

/-- Split a character list at every occurrence of a separator, keeping
empty pieces — the semantics of JavaScript `String.prototype.split`
with a single-character separator. -/
def splitOnChar (sep : Char) : List Char → List (List Char)
  | [] => [[]]
  | c :: cs =>
    match splitOnChar sep cs with
    | [] => if c = sep then [[], []] else [[c]]
    | h :: t => if c = sep then [] :: h :: t else (c :: h) :: t

/-- JavaScript `s.split(" ")`. -/
def jsSplitSpace (s : String) : List String :=
  (splitOnChar ' ' s.data).map String.mk

/-- JavaScript `s.startsWith(p)`. -/
def jsStartsWith (s p : String) : Bool :=
  List.isPrefixOf p.data s.data

/-- Result of one run of the admin messages handler. -/
inductive AdminResult where
  | unauthorized
  | forbidden
  | fetchFailed
  | ok (page limit : Int) (total totalPages : Nat) (messages : List Row)
deriving Repr, DecidableEq

/-- The `adminAuth` middleware (lines 19–33 of `src/server.js`):
`some r` is an early response, `none` means `next()` is called.  The
token is element 1 of `authHeader.split(" ")`, exactly as in the
source. -/
def adminAuth (env : Env) (authHeader : Option String) : Option AdminResult :=
  match authHeader with
  | none => some .unauthorized
  | some h =>
    if !(jsStartsWith h "Bearer ") then some .unauthorized
    else
      let token := (jsSplitSpace h).getD 1 ""
      if token != env.ADMIN_API_KEY then some .forbidden
      else none

/-- `Math.ceil(total / limit)` for a positive integer `limit` and a
non-negative integer `total`, as computed on line 188 of
`src/server.js`. -/
def mathCeilDiv (total limit : Nat) : Nat :=
  (total + limit - 1) / limit

/-- The admin listing handler body of lines 158–205 of `src/server.js`,
as that code intends it.  Two slips make this code dead in the shipped
file: the route is registered on line 158 as
`app.get("api/admin/messages", ...)` without the leading slash, so no
request path ever matches it (see `routeMatches` and
`adminRequestResponse`), and line 165 reads
`const { rows } await pool.query(` — the missing `=` is a JavaScript
syntax error, which prevents `server.js` from loading at all.  This
definition embeds the handler with that `=` restored, to state what
the dead code would do; reachability is modelled separately.  The
store is the list of inserted rows in insertion order, so
`created_at DESC` ordering is its reverse.  PostgreSQL rejects a
negative `LIMIT` or `OFFSET` argument with an error, which the
handler's `catch` turns into the 500 response; this is the
`fetchFailed` branch. -/
def adminMessages (env : Env) (authHeader : Option String)
    (pageQ limitQ : Option String) (store : List Row) : AdminResult :=
  match adminAuth env authHeader with
  | some r => r
  | none =>
    let page := orDefault (jsParseInt pageQ) 1
    let limit := orDefault (jsParseInt limitQ) 20
    let offset := (page - 1) * limit
    if limit < 0 || offset < 0 then .fetchFailed
    else
      let rows := (store.reverse.drop offset.toNat).take limit.toNat
      let total := store.length
      .ok page limit total (mathCeilDiv total limit.toNat) rows

/-- The path the admin route is registered under on line 158 of
`src/server.js`: `"api/admin/messages"`, with no leading slash. -/
def adminRoutePath : String := "api/admin/messages"

/-- Express route matching for a parameterless literal path: the
request path must equal the registered string, optionally with one
trailing slash (path-to-regexp anchors the literal at the start of the
request path, and a request path always begins with a slash). -/
def routeMatches (registered requestPath : String) : Bool :=
  registered == requestPath || (registered ++ "/") == requestPath

/-- Dispatch of a GET request through the route table of
`src/server.js`, as far as the admin listing is concerned: only when
the request path matches the registered `adminRoutePath` does the
request reach `adminAuth` and the handler; any other path falls
through to the framework's default 404, modelled as `none`.
Independently of this, the shipped module never loads at all because
of the line-165 syntax error, so `none` is, if anything, generous. -/
def adminRequestResponse (env : Env) (requestPath : String)
    (authHeader : Option String) (pageQ limitQ : Option String)
    (store : List Row) : Option AdminResult :=
  if routeMatches adminRoutePath requestPath then
    some (adminMessages env authHeader pageQ limitQ store)
  else none

/-- The rate limiter's per-address entry: the hit count in the current
window and the window's expiry time (milliseconds). -/
structure LimiterEntry where
  count : Nat
  resetTime : Nat
deriving Repr, DecidableEq

/-- The limiter's in-memory state: one entry per source address. -/
abbrev LimiterState : Type := List (String × LimiterEntry)

/-- `windowMs: 15 * 60 * 1000` from the `contactLimiter` options. -/
def windowMs : Nat := 15 * 60 * 1000

/-- `max: 5` from the `contactLimiter` options. -/
def maxHits : Nat := 5

/-- Store an address's entry, replacing any previous one. -/
def setEntry (st : LimiterState) (ip : String) (e : LimiterEntry) :
    LimiterState :=
  (ip, e) :: st.filter (fun q => q.1 != ip)

/-- Whether the limiter lets the request through or invokes the
configured handler. -/
inductive GateResult where
  | pass
  | limited
deriving Repr, DecidableEq

/-- Modelled from the spec: the `express-rate-limit` middleware itself
is a third-party dependency whose code is not in `src/`; only its
configuration (`windowMs`, `max`, `handler`) is.  Per section 4.2 of
the spec it keeps a per-source-address fixed-window counter: the first
request from an address (or the first after its window expired) opens a
fresh window; each request increments the counter; once the counter
exceeds `max`, the handler fires instead of `next()`. -/
def limiterStep (st : LimiterState) (ip : String) (now : Nat) :
    GateResult × LimiterState :=
  match st.lookup ip with
  | none => (.pass, setEntry st ip ⟨1, now + windowMs⟩)
  | some e =>
    if e.resetTime ≤ now then (.pass, setEntry st ip ⟨1, now + windowMs⟩)
    else
      let c := e.count + 1
      (if c > maxHits then .limited else .pass, setEntry st ip ⟨c, e.resetTime⟩)

/-- The outcome the `contactLimiter` handler produces when the limit is
exceeded (lines 42–50 of `src/server.js`): a `RATE_LIMITED` log event
with the source address and a 429 response. -/
def limitedOutcome (ip : String) : ContactOutcome :=
  { result := .res 429 (.error "Too many requests. Please try again later."),
    logs := [.rateLimited ip], emailSent := none, inserted := none }

/-- One `POST /api/contact` request as routed through
`app.post("/api/contact", contactLimiter, handler)`: the limiter gate
runs first and either produces the 429 outcome or hands the request to
the pipeline. -/
def gatedContact (isEmail : String → Bool) (env : Env) (st : LimiterState)
    (ip : String) (now : Nat) (p : Payload) (send : SendOutcome) :
    ContactOutcome × LimiterState :=
  match limiterStep st ip now with
  | (.limited, st2) => (limitedOutcome ip, st2)
  | (.pass, st2) => (contactHandler isEmail env ip p send, st2)

/-- A batch of requests from one source address, each with an arrival
time, a payload and a send outcome, run through the gated route in
order. -/
def runGated (isEmail : String → Bool) (env : Env) (ip : String)
    (st : LimiterState) :
    List (Nat × Payload × SendOutcome) → List ContactOutcome × LimiterState
  | [] => ([], st)
  | (t, p, s) :: rest =>
    let r := gatedContact isEmail env st ip t p s
    let rs := runGated isEmail env ip r.2 rest
    (r.1 :: rs.1, rs.2)

/-- A concrete valid submission payload, used to instantiate theorems
at concrete inputs. -/
def samplePayload : Payload :=
  { firstName := some "John", lastName := some "Doe",
    email := some "john@example.com", subject := some "Hi",
    message := some "Hello", company := none }

/-- A non-empty string has positive length, hence a string of positive
length is not the empty string. -/
theorem ne_empty_of_length_pos {s : String} (h : 0 < s.length) : s ≠ "" := by
  intro he
  subst he
  exact absurd h (by decide)

/-- C1: a contact payload whose honeypot field `company` is a non-empty
string gets the genuine-success response (HTTP 200, success body), one
SPAM_BLOCKED log event carrying the source address, no email and no
inserted row, whatever the other fields, the email validator and the
send outcome are. -/
theorem contact_honeypot_fake_success (isEmail : String → Bool) (env : Env)
    (ip : String) (p : Payload) (send : SendOutcome) (c : String)
    (hc : p.company = some c) (hne : c ≠ "") :
    contactHandler isEmail env ip p send =
      { result := .res 200 .success, logs := [.spamBlocked ip],
        emailSent := none, inserted := none } := by
  have hc' : truthy p.company = true := by rw [hc]; simp [truthy, hne]
  unfold contactHandler
  simp [hc']

/-- Closed instance of the honeypot theorem: a payload with a non-empty
`company` and every required field absent still gets the fake success. -/
theorem contact_honeypot_fake_success_witness :
    contactHandler (fun _ => false) ⟨"owner@example.com", "k"⟩ "1.2.3.4"
      ⟨none, none, none, none, none, some "Acme"⟩ (.exn "boom") =
      { result := .res 200 .success, logs := [.spamBlocked "1.2.3.4"],
        emailSent := none, inserted := none } :=
  contact_honeypot_fake_success (fun _ => false) ⟨"owner@example.com", "k"⟩
    "1.2.3.4" ⟨none, none, none, none, none, some "Acme"⟩ (.exn "boom")
    "Acme" rfl (by decide)

/-- C6: with the honeypot quiet, a payload missing (absent or empty)
any of firstName, lastName, email, message is answered 400
"Missing required fields." with no log, no email and no insert —
independently of the email validator and the message content, i.e.
before any format validation is consulted. -/
theorem contact_missing_required_fields (isEmail : String → Bool) (env : Env)
    (ip : String) (p : Payload) (send : SendOutcome)
    (hc : truthy p.company = false)
    (hmiss : truthy p.firstName = false ∨ truthy p.lastName = false ∨
      truthy p.email = false ∨ truthy p.message = false) :
    contactHandler isEmail env ip p send =
      { result := .res 400 (.error "Missing required fields."), logs := [],
        emailSent := none, inserted := none } := by
  unfold contactHandler
  rcases hmiss with h | h | h | h <;> simp [hc, h]

/-- Closed instance of the missing-fields theorem: an invalid email and
an over-long message do not change the missing-fields response. -/
theorem contact_missing_required_fields_witness :
    contactHandler (fun _ => false) ⟨"owner@example.com", "k"⟩ "1.2.3.4"
      ⟨some "John", some "", some "not an email", some "Hi",
        some "Hello", none⟩ .ok =
      { result := .res 400 (.error "Missing required fields."), logs := [],
        emailSent := none, inserted := none } :=
  contact_missing_required_fields (fun _ => false) ⟨"owner@example.com", "k"⟩
    "1.2.3.4"
    ⟨some "John", some "", some "not an email", some "Hi", some "Hello", none⟩
    .ok (by decide) (Or.inr (Or.inl (by decide)))

/-- C8 (code bug): an otherwise fully valid payload whose optional
`subject` field is absent crashes the handler: line 94 of
`src/server.js` runs `validator.escape(subject)` outside the
`try` block and validator.js throws a TypeError on `undefined`, so no
email is dispatched, no row is stored, nothing is logged and the
promised 200 response with the default subject "New Portfolio Contact"
is never produced. -/
theorem contact_absent_subject_crashes :
    contactHandler (fun _ => true) ⟨"owner@example.com", "k"⟩ "1.2.3.4"
      ⟨some "John", some "Doe", some "john@example.com", none,
        some "Hello", none⟩ .ok =
      { result := .crash "TypeError: Expected a string but received a undefined",
        logs := [], emailSent := none, inserted := none } := by decide

/-- The bearer-token middleware logic of lines 19–33 as it behaves in
the repaired handler (in the shipped source this code never receives a
request: the route registration is unreachable and the module does not
parse): 401 when the Authorization header is absent or does not start
with the bearer prefix, 403 when it does but the extracted token
differs from the configured admin key, and the request reaches the
listing logic (the middleware calls next) exactly when the token
equals the key. -/
theorem admin_auth_gate (env : Env) (pageQ limitQ : Option String)
    (store : List Row) :
    adminMessages env none pageQ limitQ store = .unauthorized ∧
    (∀ h, jsStartsWith h "Bearer " = false →
      adminMessages env (some h) pageQ limitQ store = .unauthorized) ∧
    (∀ h, jsStartsWith h "Bearer " = true →
      (jsSplitSpace h).getD 1 "" ≠ env.ADMIN_API_KEY →
      adminMessages env (some h) pageQ limitQ store = .forbidden) ∧
    (∀ h, adminAuth env (some h) = none ↔
      (jsStartsWith h "Bearer " = true ∧
        (jsSplitSpace h).getD 1 "" = env.ADMIN_API_KEY)) := by
  refine ⟨rfl, fun h hb => ?_, fun h hb ht => ?_, fun h => ?_⟩
  · simp [adminMessages, adminAuth, hb]
  · rw [List.getD_eq_getElem?_getD] at ht
    simp [adminMessages, adminAuth, hb, ht]
  · rw [List.getD_eq_getElem?_getD]
    constructor
    · intro hnone
      unfold adminAuth at hnone
      by_cases hb : jsStartsWith h "Bearer " = true
      · refine ⟨hb, ?_⟩
        by_cases ht : (jsSplitSpace h)[1]?.getD "" = env.ADMIN_API_KEY
        · exact ht
        · simp [hb, ht] at hnone
      · simp [Bool.not_eq_true] at hb
        simp [hb] at hnone
    · rintro ⟨hb, ht⟩
      simp [adminAuth, hb, ht]

/-- Closed instance of the middleware-logic theorem for the repaired
handler: no header gives 401, a non-bearer header gives 401, a wrong
bearer token gives 403, and the exact key is precisely what passes the
middleware. -/
theorem admin_auth_gate_witness :
    adminMessages ⟨"owner@example.com", "sekret"⟩ none none none [] =
        .unauthorized ∧
      adminMessages ⟨"owner@example.com", "sekret"⟩ (some "Token sekret")
        none none [] = .unauthorized ∧
      adminMessages ⟨"owner@example.com", "sekret"⟩ (some "Bearer wrong")
        none none [] = .forbidden ∧
      adminAuth ⟨"owner@example.com", "sekret"⟩ (some "Bearer sekret") = none := by
  obtain ⟨h1, h2, h3, h4⟩ :=
    admin_auth_gate ⟨"owner@example.com", "sekret"⟩ none none []
  exact ⟨h1, h2 "Token sekret" (by decide), h3 "Bearer wrong" (by decide)
    (by decide), (h4 "Bearer sekret").mpr (by decide)⟩

/-- Pagination of the repaired handler at concrete inputs: even the
intended code does not cap `limit` at 100 — with `limit=500` the 200
response reports limit 500 — and a negative `page` is not replaced by
the default 1: it produces a negative offset, the store query fails
and the response is the 500 error, not a page-1 listing. -/
theorem admin_pagination_counterexample :
    adminMessages ⟨"owner@example.com", "sekret"⟩ (some "Bearer sekret")
        none (some "500") [] = .ok 1 500 0 0 [] ∧
      ¬ (500 : Int) ≤ 100 ∧
      adminMessages ⟨"owner@example.com", "sekret"⟩ (some "Bearer sekret")
        (some "-1") (some "20") [] = .fetchFailed := by decide

/-- Pagination behaviour of the repaired handler, for an authenticated
request: `page` and `limit` fall back to their defaults (1 and 20)
when the query parameter is absent, non-numeric or zero
(`parseInt(x) || d`), but a parsed negative value is kept — and then
the negative offset `(page-1)*limit` or negative limit makes the store
query fail (HTTP 500).  `limit` is never capped.  When page and limit
are positive the response is the 200 body carrying page, limit,
total = the store size, the slice of the creation-descending row list
starting at offset `(page-1)*limit` of at most `limit` rows, and
`totalPages` equal to the exact ceiling of total/limit, characterised
by `total ≤ totalPages * limit < total + limit`. -/
theorem admin_pagination_amended (env : Env) (h : String)
    (pageQ limitQ : Option String) (store : List Row)
    (hauth : adminAuth env (some h) = none) :
    (jsParseInt pageQ = none ∨ jsParseInt pageQ = some 0 →
      orDefault (jsParseInt pageQ) 1 = 1) ∧
    (jsParseInt limitQ = none ∨ jsParseInt limitQ = some 0 →
      orDefault (jsParseInt limitQ) 20 = 20) ∧
    (1 ≤ orDefault (jsParseInt pageQ) 1 → 1 ≤ orDefault (jsParseInt limitQ) 20 →
      adminMessages env (some h) pageQ limitQ store =
        .ok (orDefault (jsParseInt pageQ) 1) (orDefault (jsParseInt limitQ) 20)
          store.length
          (mathCeilDiv store.length (orDefault (jsParseInt limitQ) 20).toNat)
          ((store.reverse.drop
              (((orDefault (jsParseInt pageQ) 1 - 1) *
                orDefault (jsParseInt limitQ) 20).toNat)).take
            (orDefault (jsParseInt limitQ) 20).toNat) ∧
      store.length ≤
        mathCeilDiv store.length (orDefault (jsParseInt limitQ) 20).toNat *
          (orDefault (jsParseInt limitQ) 20).toNat ∧
      mathCeilDiv store.length (orDefault (jsParseInt limitQ) 20).toNat *
          (orDefault (jsParseInt limitQ) 20).toNat <
        store.length + (orDefault (jsParseInt limitQ) 20).toNat) ∧
    (orDefault (jsParseInt pageQ) 1 < 0 ∨ orDefault (jsParseInt limitQ) 20 < 0 →
      adminMessages env (some h) pageQ limitQ store = .fetchFailed) := by
  set page := orDefault (jsParseInt pageQ) 1 with hpage
  set limit := orDefault (jsParseInt limitQ) 20 with hlimit
  have hpage0 : page ≠ 0 := by
    rw [hpage]; unfold orDefault
    rcases jsParseInt pageQ with _ | n
    · decide
    · by_cases hn : n = 0 <;> simp [hn]
  have hlimit0 : limit ≠ 0 := by
    rw [hlimit]; unfold orDefault
    rcases jsParseInt limitQ with _ | n
    · decide
    · by_cases hn : n = 0 <;> simp [hn]
  refine ⟨fun hd => ?_, fun hd => ?_, fun hp hl => ?_, fun hneg => ?_⟩
  · rcases hd with hd | hd <;> simp [hpage, orDefault, hd]
  · rcases hd with hd | hd <;> simp [hlimit, orDefault, hd]
  · have hoff : ¬ (limit < 0 ∨ (page - 1) * limit < 0) := by
      push_neg
      exact ⟨by omega, Int.mul_nonneg (by omega) (by omega)⟩
    have hlpos : 0 < limit.toNat := by omega
    refine ⟨?_, ?_, ?_⟩
    · unfold adminMessages
      rw [hauth]
      simp only [← hpage, ← hlimit, Bool.or_eq_true, decide_eq_true_eq]
      rw [if_neg hoff]
    · unfold mathCeilDiv
      have h1 := Nat.lt_div_mul_add (a := store.length + limit.toNat - 1) hlpos
      omega
    · unfold mathCeilDiv
      have h1 := Nat.div_mul_le_self (store.length + limit.toNat - 1) limit.toNat
      omega
  · unfold adminMessages
    rw [hauth]
    have hoff : (limit < 0 ∨ (page - 1) * limit < 0) := by
      rcases hneg with hneg | hneg
      · have hl1 : 0 < limit ∨ limit < 0 := by omega
        rcases hl1 with hl1 | hl1
        · exact Or.inr (Int.mul_neg_of_neg_of_pos (by omega) hl1)
        · exact Or.inl hl1
      · exact Or.inl hneg
    simp only [← hpage, ← hlimit, Bool.or_eq_true, decide_eq_true_eq]
    rw [if_pos hoff]

/-- Closed instance of the repaired-handler pagination theorem: page 2
with limit 1 over a three-row store returns the second-newest row,
total 3 and totalPages 3. -/
theorem admin_pagination_amended_witness :
    adminMessages ⟨"owner@example.com", "sekret"⟩ (some "Bearer sekret")
        (some "2") (some "1")
        [⟨"a", "l", "e@x.co", none, "m", "ip"⟩,
         ⟨"b", "l", "e@x.co", none, "m", "ip"⟩,
         ⟨"c", "l", "e@x.co", none, "m", "ip"⟩] =
      .ok 2 1 3 3 [⟨"b", "l", "e@x.co", none, "m", "ip"⟩] := by
  have h := (admin_pagination_amended ⟨"owner@example.com", "sekret"⟩
    "Bearer sekret" (some "2") (some "1")
    [⟨"a", "l", "e@x.co", none, "m", "ip"⟩,
     ⟨"b", "l", "e@x.co", none, "m", "ip"⟩,
     ⟨"c", "l", "e@x.co", none, "m", "ip"⟩]
    (by decide)).2.2.1 (by decide) (by decide)
  exact h.1.trans (by decide)

/-- C4 (code bug): no request to the admin messages URL ever reaches
the bearer-token middleware, so none of the 401, 403 or pass-through
responses the claim describes is ever produced: the route is
registered on line 158 without the leading slash, so the request path
"/api/admin/messages" matches no route and every such request falls
through to the framework's default 404 — whatever the header, query
parameters and store contents are.  (Independently, the line-165
syntax error stops `server.js` from loading at all.)  The middleware
logic the claim and spec describe is exactly what the dead code would
do, per `admin_auth_gate`. -/
theorem admin_route_unreachable (env : Env) (authHeader : Option String)
    (pageQ limitQ : Option String) (store : List Row) :
    adminRequestResponse env "/api/admin/messages" authHeader pageQ limitQ
      store = none := by
  have hc : routeMatches adminRoutePath "/api/admin/messages" = false := by
    decide
  unfold adminRequestResponse
  simp [hc]

/-- C5 (code bug): evaluated at the claim's own scenario — a correctly
authenticated GET of the admin messages URL with page 2 and limit 10 —
route dispatch yields no response from this endpoint: the pagination
logic (whose intended behaviour is characterised by
`admin_pagination_amended`) is dead code in the shipped source, both
because the registered path lacks the leading slash and because the
module has a line-165 syntax error. -/
theorem admin_pagination_unreachable :
    adminRequestResponse ⟨"owner@example.com", "sekret"⟩
      "/api/admin/messages" (some "Bearer sekret") (some "2") (some "10")
      [] = none := by decide

/-- C2: every accepted submission (the run that inserts a row and
returns the 200 success) stores and emails the HTML-escaped forms of
firstName, lastName, subject and message, and stores and uses the email
address raw: the inserted row holds `escapeHtml` of each submitted
value (subject dropped to NULL when it escapes to the empty string) and
the dispatched email's reply-to and bodies carry the raw address next
to the escaped texts. -/
theorem contact_success_sanitized (isEmail : String → Bool) (env : Env)
    (ip fn ln e subj m : String)
    (hfn : fn ≠ "") (hln : ln ≠ "") (hee : e ≠ "")
    (he : isEmail e = true) (helen : e.length ≤ 254)
    (hm : m ≠ "") (hmlen : m.length ≤ 1000) :
    contactHandler isEmail env ip
      ⟨some fn, some ln, some e, some subj, some m, none⟩ .ok =
      { result := .res 200 .success,
        logs := [.success ip e subj],
        emailSent := some
          { fromAddr := "Portfolio Contact <onboarding@resend.dev>",
            toAddr := env.EMAIL_USER,
            replyTo := e,
            subject := if escapeHtml subj != "" then escapeHtml subj
                       else "New Portfolio Contact",
            text := emailText (escapeHtml fn) (escapeHtml ln) e
              (escapeHtml subj) (escapeHtml m),
            html := emailHtml (escapeHtml fn) (escapeHtml ln) e
              (escapeHtml subj) (escapeHtml m) },
        inserted := some
          { first_name := escapeHtml fn,
            last_name := escapeHtml ln,
            email := e,
            subject := if escapeHtml subj != "" then some (escapeHtml subj)
                       else none,
            message := escapeHtml m,
            ip_address := ip } } := by
  have h254 : ¬ e.length > 254 := by omega
  have h1000 : ¬ m.length > 1000 := by omega
  unfold contactHandler
  simp [truthy, hfn, hln, hee, hm, he, h254, h1000]

/-- Closed instance of the sanitization theorem: a message containing
script markup is stored and emailed with entity-escaped markup only. -/
theorem contact_success_sanitized_witness :
    contactHandler (fun _ => true) ⟨"owner@example.com", "k"⟩ "1.2.3.4"
      ⟨some "John", some "Doe", some "john@example.com", some "Hi",
        some "<script>alert(1)</script>", none⟩ .ok =
      { result := .res 200 .success,
        logs := [.success "1.2.3.4" "john@example.com" "Hi"],
        emailSent := some
          { fromAddr := "Portfolio Contact <onboarding@resend.dev>",
            toAddr := "owner@example.com",
            replyTo := "john@example.com",
            subject := if escapeHtml "Hi" != "" then escapeHtml "Hi"
                       else "New Portfolio Contact",
            text := emailText (escapeHtml "John") (escapeHtml "Doe")
              "john@example.com" (escapeHtml "Hi")
              (escapeHtml "<script>alert(1)</script>"),
            html := emailHtml (escapeHtml "John") (escapeHtml "Doe")
              "john@example.com" (escapeHtml "Hi")
              (escapeHtml "<script>alert(1)</script>") },
        inserted := some
          { first_name := escapeHtml "John",
            last_name := escapeHtml "Doe",
            email := "john@example.com",
            subject := if escapeHtml "Hi" != "" then some (escapeHtml "Hi")
                       else none,
            message := escapeHtml "<script>alert(1)</script>",
            ip_address := "1.2.3.4" } } :=
  contact_success_sanitized (fun _ => true) ⟨"owner@example.com", "k"⟩
    "1.2.3.4" "John" "Doe" "john@example.com" "Hi"
    "<script>alert(1)</script>" (by decide) (by decide) (by decide)
    (by decide) (by decide) (by decide) (by decide)

/-- C3: when the email dispatch of a submission that passed validation
fails, no row is inserted and the response is the generic 500 message.
A structured provider error payload is first logged as RESEND_ERROR
with source address, submitter email and the provider message and then
rethrown into the generic path; a transport exception goes to the
generic path directly; both log one ERROR event with the source address
and the error detail, and the response body is the fixed generic string
whatever the internal detail was. -/
theorem contact_send_failure_no_insert (isEmail : String → Bool) (env : Env)
    (ip fn ln e subj m : String)
    (hfn : fn ≠ "") (hln : ln ≠ "") (hee : e ≠ "")
    (he : isEmail e = true) (helen : e.length ≤ 254)
    (hm : m ≠ "") (hmlen : m.length ≤ 1000) :
    (∀ msg, contactHandler isEmail env ip
        ⟨some fn, some ln, some e, some subj, some m, none⟩ (.errPayload msg) =
      { result := .res 500 (.error "Failed to send message. Please try again later."),
        logs := [.resendError ip e msg, .error ip msg],
        emailSent := none, inserted := none }) ∧
    (∀ msg, contactHandler isEmail env ip
        ⟨some fn, some ln, some e, some subj, some m, none⟩ (.exn msg) =
      { result := .res 500 (.error "Failed to send message. Please try again later."),
        logs := [.error ip msg],
        emailSent := none, inserted := none }) := by
  have h254 : ¬ e.length > 254 := by omega
  have h1000 : ¬ m.length > 1000 := by omega
  constructor <;> intro msg <;>
    · unfold contactHandler
      simp [truthy, hfn, hln, hee, hm, he, h254, h1000]

/-- Closed instance of the dispatch-failure theorem at a concrete
payload and provider error. -/
theorem contact_send_failure_no_insert_witness :
    contactHandler (fun _ => true) ⟨"owner@example.com", "k"⟩ "1.2.3.4"
      ⟨some "John", some "Doe", some "john@example.com", some "Hi",
        some "Hello", none⟩ (.errPayload "quota exceeded") =
      { result := .res 500 (.error "Failed to send message. Please try again later."),
        logs := [.resendError "1.2.3.4" "john@example.com" "quota exceeded",
          .error "1.2.3.4" "quota exceeded"],
        emailSent := none, inserted := none } :=
  (contact_send_failure_no_insert (fun _ => true) ⟨"owner@example.com", "k"⟩
    "1.2.3.4" "John" "Doe" "john@example.com" "Hi" "Hello" (by decide)
    (by decide) (by decide) (by decide) (by decide) (by decide)
    (by decide)).1 "quota exceeded"

/-- C7: with every other field valid, a message of exactly 1000
characters is accepted — the submission proceeds and, when the provider
call succeeds, the response is 200 with a row inserted — while a
message of 1001 or more characters is rejected 400 with the length
error for every send outcome: the boundary is inclusive at 1000. -/
theorem contact_message_length_boundary (isEmail : String → Bool) (env : Env)
    (ip fn ln e subj m : String)
    (hfn : fn ≠ "") (hln : ln ≠ "") (hee : e ≠ "")
    (he : isEmail e = true) (helen : e.length ≤ 254) :
    (m.length = 1000 →
      (contactHandler isEmail env ip
          ⟨some fn, some ln, some e, some subj, some m, none⟩ .ok).result =
        .res 200 .success ∧
      (contactHandler isEmail env ip
          ⟨some fn, some ln, some e, some subj, some m, none⟩ .ok).inserted ≠
        none) ∧
    (1001 ≤ m.length → ∀ send, contactHandler isEmail env ip
        ⟨some fn, some ln, some e, some subj, some m, none⟩ send =
      { result := .res 400 (.error "Message must be less than 1000 characters"),
        logs := [], emailSent := none, inserted := none }) := by
  have h254 : ¬ e.length > 254 := by omega
  constructor
  · intro hlen
    have hm : m ≠ "" := ne_empty_of_length_pos (by omega)
    have h1000 : ¬ m.length > 1000 := by omega
    unfold contactHandler
    simp [truthy, hfn, hln, hee, hm, he, h254, h1000]
  · intro hlen send
    have hm : m ≠ "" := ne_empty_of_length_pos (by omega)
    have h1000 : m.length > 1000 := by omega
    unfold contactHandler
    simp [truthy, hfn, hln, hee, hm, he, h254, h1000]

/-- Closed instance of the length-boundary theorem: 1000 identical
characters pass, 1001 are rejected with the length error. -/
theorem contact_message_length_boundary_witness :
    (contactHandler (fun _ => true) ⟨"owner@example.com", "k"⟩ "1.2.3.4"
        ⟨some "John", some "Doe", some "john@example.com", some "Hi",
          some (String.mk (List.replicate 1000 'a')), none⟩ .ok).result =
      .res 200 .success ∧
    contactHandler (fun _ => true) ⟨"owner@example.com", "k"⟩ "1.2.3.4"
        ⟨some "John", some "Doe", some "john@example.com", some "Hi",
          some (String.mk (List.replicate 1001 'a')), none⟩ (.exn "boom") =
      { result := .res 400 (.error "Message must be less than 1000 characters"),
        logs := [], emailSent := none, inserted := none } := by
  constructor
  · exact ((contact_message_length_boundary (fun _ => true)
      ⟨"owner@example.com", "k"⟩ "1.2.3.4" "John" "Doe" "john@example.com"
      "Hi" (String.mk (List.replicate 1000 'a')) (by decide) (by decide)
      (by decide) (by decide) (by decide)).1 (by decide)).1
  · exact (contact_message_length_boundary (fun _ => true)
      ⟨"owner@example.com", "k"⟩ "1.2.3.4" "John" "Doe" "john@example.com"
      "Hi" (String.mk (List.replicate 1001 'a')) (by decide) (by decide)
      (by decide) (by decide) (by decide)).2 (by decide) (.exn "boom")

/-- A non-empty string has positive length. -/
theorem length_pos_of_ne_empty {s : String} (h : s ≠ "") : 0 < s.length := by
  cases s with
  | mk data =>
    cases data with
    | nil => exact absurd rfl h
    | cons a l => simp [String.length]

/-- C10 counterexample: a successful submission may store a first name
of 21 characters, a whitespace-only last name, a 101-character subject
and a (post-escape) 1005-character body — the handler never checks name
or subject lengths, never trims, and escaping can lengthen the body
past 1000. -/
theorem contact_row_invariants_counterexample :
    (contactHandler (fun _ => true) ⟨"owner@example.com", "k"⟩ "1.2.3.4"
        ⟨some (String.mk (List.replicate 21 'a')), some " ", some "a@b.co",
          some (String.mk (List.replicate 101 'b')),
          some (String.mk (List.replicate 201 '&')), none⟩ .ok).result =
      .res 200 .success ∧
    ((contactHandler (fun _ => true) ⟨"owner@example.com", "k"⟩ "1.2.3.4"
        ⟨some (String.mk (List.replicate 21 'a')), some " ", some "a@b.co",
          some (String.mk (List.replicate 101 'b')),
          some (String.mk (List.replicate 201 '&')), none⟩ .ok).inserted.map
      (fun r => (r.first_name.length, r.last_name, r.subject.map String.length,
        r.message.length))) = some (21, " ", some 101, 1005) := by decide

/-- C10 amended: every row created by a successful submission stores
the HTML-escaped forms of a non-empty submitted first name, last name
and message (the raw message being 1–1000 characters, though its
escaped form may be longer), an email address that passed the email
validator and is at most 254 characters (stored raw), the caller's
source address, and a subject that is the escaped form of the submitted
subject when that is non-empty; no 20-character name bound,
100-character subject bound or whitespace trimming is enforced. -/
theorem contact_inserted_row_invariants (isEmail : String → Bool) (env : Env)
    (ip : String) (p : Payload) (send : SendOutcome) (row : Row)
    (hins : (contactHandler isEmail env ip p send).inserted = some row) :
    isEmail row.email = true ∧ row.email.length ≤ 254 ∧ row.ip_address = ip ∧
    p.email = some row.email ∧
    (∃ fn, p.firstName = some fn ∧ fn ≠ "" ∧ row.first_name = escapeHtml fn) ∧
    (∃ ln, p.lastName = some ln ∧ ln ≠ "" ∧ row.last_name = escapeHtml ln) ∧
    (∃ m, p.message = some m ∧ 1 ≤ m.length ∧ m.length ≤ 1000 ∧
      row.message = escapeHtml m) ∧
    (∀ s ∈ row.subject, ∃ subj, p.subject = some subj ∧ s = escapeHtml subj ∧
      s ≠ "") := by
  unfold contactHandler at hins
  split at hins
  · simp at hins
  split at hins
  · simp at hins
  next hmiss =>
  split at hins
  · simp [apply_ite ContactOutcome.inserted] at hins
  next subj hsubj =>
  split at hins
  · simp [apply_ite ContactOutcome.inserted] at hins
  · simp [apply_ite ContactOutcome.inserted] at hins
  simp only [apply_ite ContactOutcome.inserted] at hins
  split at hins
  · simp at hins
  next hemail =>
  split at hins
  · simp at hins
  next helen =>
  split at hins
  · simp at hins
  next hmsg =>
  simp only [Option.some_inj] at hins
  subst hins
  simp only [Bool.not_eq_true, Bool.or_eq_true, Bool.not_eq_true',
    not_or, Bool.not_eq_false] at hmiss hemail hmsg
  obtain ⟨⟨⟨hfn, hln⟩, hem⟩, hms⟩ := hmiss
  obtain ⟨-, hise⟩ := hemail
  obtain ⟨-, hm1000⟩ := hmsg
  rcases hpf : p.firstName with _ | fn
  · rw [hpf] at hfn; exact absurd hfn (by decide)
  rcases hpl : p.lastName with _ | ln
  · rw [hpl] at hln; exact absurd hln (by decide)
  rcases hpe : p.email with _ | e
  · rw [hpe] at hem; exact absurd hem (by decide)
  rcases hpm : p.message with _ | m
  · rw [hpm] at hms; exact absurd hms (by decide)
  rw [hpf] at hfn
  rw [hpl] at hln
  rw [hpe] at hise helen
  rw [hpm] at hms hm1000
  simp only [truthy, bne_iff_ne, ne_eq, Option.getD_some] at hfn hln hise hms helen hm1000
  simp only [Option.getD_some]
  refine ⟨hise, by omega, trivial, trivial, ⟨fn, rfl, hfn, rfl⟩,
    ⟨ln, rfl, hln, rfl⟩,
    ⟨m, rfl, length_pos_of_ne_empty hms, ?_, rfl⟩, ?_⟩
  · have := of_decide_eq_false hm1000
    omega
  · intro s hs
    by_cases hne : (escapeHtml subj != "") = true
    · rw [if_pos hne] at hs
      simp only [Option.mem_def, Option.some_inj] at hs
      subst hs
      exact ⟨subj, hsubj, rfl, by simpa using hne⟩
    · rw [if_neg hne] at hs
      simp at hs

/-- Closed instance of the row-invariants theorem, projected to its
message clause at a concrete accepted submission. -/
theorem contact_inserted_row_invariants_witness :
    ∃ m, (some "Hello" : Option String) = some m ∧ 1 ≤ m.length ∧
      m.length ≤ 1000 ∧ ("Hello" : String) = escapeHtml m := by
  have h := contact_inserted_row_invariants (fun _ => true)
    ⟨"owner@example.com", "k"⟩ "1.2.3.4"
    ⟨some "John", some "Doe", some "john@example.com", some "Hi",
      some "Hello", none⟩ .ok
    ⟨"John", "Doe", "john@example.com", some "Hi", "Hello", "1.2.3.4"⟩
    (by decide)
  exact h.2.2.2.2.2.2.1

/-- Looking up an address right after storing its entry finds it. -/
theorem lookup_setEntry_self (st : LimiterState) (ip : String)
    (e : LimiterEntry) : (setEntry st ip e).lookup ip = some e := by
  simp [setEntry, List.lookup]

/-- Running a batch of requests that all arrive before an address's
window expiry, starting from a state whose counter for the address is
`c`: the i-th request of the batch (holding overall hit number
`c + 1 + i`) reaches the pipeline exactly while the hit number is at
most `max`, later ones get the limiter's handler outcome; the counter
ends at `c` plus the batch length with the window expiry unchanged. -/
theorem runGated_in_window (isEmail : String → Bool) (env : Env) (ip : String)
    (R : Nat) (reqs : List (Nat × Payload × SendOutcome)) :
    ∀ (st : LimiterState) (c : Nat), st.lookup ip = some ⟨c, R⟩ →
      (∀ r ∈ reqs, r.1 < R) →
      (runGated isEmail env ip st reqs).1 =
        (reqs.enumFrom (c + 1)).map
          (fun q => if q.1 ≤ maxHits
            then contactHandler isEmail env ip q.2.2.1 q.2.2.2
            else limitedOutcome ip) ∧
      (runGated isEmail env ip st reqs).2.lookup ip =
        some ⟨c + reqs.length, R⟩ := by
  induction reqs with
  | nil =>
    intro st c hst _
    simp [runGated, hst]
  | cons head rest ih =>
    obtain ⟨t, p, s⟩ := head
    intro st c hst hin
    have ht : t < R := hin (t, p, s) (List.mem_cons_self _ _)
    have hnR : ¬ R ≤ t := by omega
    have hstep : limiterStep st ip t =
        (if maxHits < c + 1 then GateResult.limited else GateResult.pass,
          setEntry st ip ⟨c + 1, R⟩) := by
      unfold limiterStep
      rw [hst]
      simp [hnR]
    have hin2 : ∀ r ∈ rest, r.1 < R := fun r hr => hin r (List.mem_cons_of_mem _ hr)
    obtain ⟨ih1, ih2⟩ := ih (setEntry st ip ⟨c + 1, R⟩) (c + 1)
      (lookup_setEntry_self st ip ⟨c + 1, R⟩) hin2
    by_cases hc : maxHits < c + 1
    · have hg : gatedContact isEmail env st ip t p s =
          (limitedOutcome ip, setEntry st ip ⟨c + 1, R⟩) := by
        unfold gatedContact
        rw [hstep, if_pos hc]
      have hhead : ¬ c + 1 ≤ maxHits := by omega
      constructor
      · simp only [runGated, hg, ih1, List.enumFrom, List.map_cons,
          if_neg hhead]
      · simp only [runGated, hg, ih2, List.length_cons]
        exact congrArg (fun n => some ({ count := n, resetTime := R } : LimiterEntry)) (by omega)
    · have hg : gatedContact isEmail env st ip t p s =
          (contactHandler isEmail env ip p s, setEntry st ip ⟨c + 1, R⟩) := by
        unfold gatedContact
        rw [hstep, if_neg hc]
      have hhead : c + 1 ≤ maxHits := by omega
      constructor
      · simp only [runGated, hg, ih1, List.enumFrom, List.map_cons,
          if_pos hhead]
      · simp only [runGated, hg, ih2, List.length_cons]
        exact congrArg (fun n => some ({ count := n, resetTime := R } : LimiterEntry)) (by omega)

/-- C9: modelled from the spec for the express-rate-limit dependency
(configuration in `src/server.js` lines 39–51).  Starting with an
address the limiter has not seen, a first request at time t and any
batch of further requests arriving before t + 15 minutes: the first
request and the following ones up to overall hit number 5 reach the
contact pipeline, every later request in the window instead yields the
429 "Too many requests. Please try again later." outcome with its one
RATE_LIMITED log event and touches neither email nor store; and a
request arriving once the window has elapsed reaches the pipeline
again. -/
theorem contact_rate_limit_window (isEmail : String → Bool) (env : Env)
    (ip : String) (st : LimiterState) (t : Nat) (p0 : Payload)
    (s0 : SendOutcome) (reqs : List (Nat × Payload × SendOutcome)) (u : Nat)
    (p1 : Payload) (s1 : SendOutcome)
    (hfresh : st.lookup ip = none)
    (hin : ∀ r ∈ reqs, r.1 < t + windowMs)
    (hu : t + windowMs ≤ u) :
    (runGated isEmail env ip st ((t, p0, s0) :: reqs)).1 =
      contactHandler isEmail env ip p0 s0 ::
        (reqs.enumFrom 2).map
          (fun q => if q.1 ≤ maxHits
            then contactHandler isEmail env ip q.2.2.1 q.2.2.2
            else limitedOutcome ip) ∧
    (runGated isEmail env ip
        (runGated isEmail env ip st ((t, p0, s0) :: reqs)).2
        [(u, p1, s1)]).1 =
      [contactHandler isEmail env ip p1 s1] := by
  have hstep0 : limiterStep st ip t =
      (GateResult.pass, setEntry st ip ⟨1, t + windowMs⟩) := by
    unfold limiterStep
    rw [hfresh]
  have hg0 : gatedContact isEmail env st ip t p0 s0 =
      (contactHandler isEmail env ip p0 s0, setEntry st ip ⟨1, t + windowMs⟩) := by
    unfold gatedContact
    rw [hstep0]
  obtain ⟨h1, h2⟩ := runGated_in_window isEmail env ip (t + windowMs) reqs
    (setEntry st ip ⟨1, t + windowMs⟩) 1
    (lookup_setEntry_self st ip ⟨1, t + windowMs⟩) hin
  refine ⟨by simp only [runGated, hg0, h1], ?_⟩
  have hstepu : limiterStep
      (runGated isEmail env ip (setEntry st ip ⟨1, t + windowMs⟩) reqs).2 ip u =
      (GateResult.pass,
        setEntry (runGated isEmail env ip (setEntry st ip ⟨1, t + windowMs⟩) reqs).2
          ip ⟨1, u + windowMs⟩) := by
    unfold limiterStep
    rw [h2]
    simp [hu]
  have hgu : gatedContact isEmail env
      (runGated isEmail env ip (setEntry st ip ⟨1, t + windowMs⟩) reqs).2 ip u p1 s1 =
      (contactHandler isEmail env ip p1 s1,
        setEntry (runGated isEmail env ip (setEntry st ip ⟨1, t + windowMs⟩) reqs).2
          ip ⟨1, u + windowMs⟩) := by
    unfold gatedContact
    rw [hstepu]
  simp only [runGated, hg0, hgu]

/-- Closed instance of the rate-limit theorem: six valid submissions
from one fresh address inside one window, then one more after the
window has elapsed — the first five and the post-window one reach the
pipeline, the sixth gets the 429 outcome. -/
theorem contact_rate_limit_window_witness :
    (runGated (fun _ => true) ⟨"owner@example.com", "k"⟩ "9.9.9.9" []
        ((0, samplePayload, SendOutcome.ok) ::
          [(1, samplePayload, .ok), (2, samplePayload, .ok),
            (3, samplePayload, .ok), (4, samplePayload, .ok),
            (5, samplePayload, .ok)])).1 =
      contactHandler (fun _ => true) ⟨"owner@example.com", "k"⟩ "9.9.9.9"
          samplePayload .ok ::
        (([(1, samplePayload, .ok), (2, samplePayload, .ok),
            (3, samplePayload, .ok), (4, samplePayload, .ok),
            (5, samplePayload, .ok)] :
              List (Nat × Payload × SendOutcome)).enumFrom 2).map
          (fun q => if q.1 ≤ maxHits
            then contactHandler (fun _ => true) ⟨"owner@example.com", "k"⟩
              "9.9.9.9" q.2.2.1 q.2.2.2
            else limitedOutcome "9.9.9.9") ∧
    (runGated (fun _ => true) ⟨"owner@example.com", "k"⟩ "9.9.9.9"
        (runGated (fun _ => true) ⟨"owner@example.com", "k"⟩ "9.9.9.9" []
          ((0, samplePayload, SendOutcome.ok) ::
            [(1, samplePayload, .ok), (2, samplePayload, .ok),
              (3, samplePayload, .ok), (4, samplePayload, .ok),
              (5, samplePayload, .ok)])).2
        [(windowMs, samplePayload, .ok)]).1 =
      [contactHandler (fun _ => true) ⟨"owner@example.com", "k"⟩ "9.9.9.9"
        samplePayload .ok] :=
  contact_rate_limit_window (fun _ => true) ⟨"owner@example.com", "k"⟩
    "9.9.9.9" [] 0 samplePayload .ok
    [(1, samplePayload, .ok), (2, samplePayload, .ok),
      (3, samplePayload, .ok), (4, samplePayload, .ok),
      (5, samplePayload, .ok)]
    windowMs samplePayload .ok rfl (by decide) (by decide)

end PortfolioBackend
